import Mathlib

/-!
Verification of the reconciliation engine of `src/models/reconciliation.py`
(class `ReconciliationEngine`): trip-count windowing, report-date resolution,
NAP qualification, daily aggregation and the `reconcile` pipeline.

Modelling conventions (shallow embedding of the pandas code):
* Timestamps are integer seconds (`Int`); `dateOf` is `.date()` (floor to day)
  and `tod` is `.time()` (seconds past midnight).  `pd.Timedelta(hours=24)` is
  `86400` seconds and `pd.Timedelta(days=1)` likewise.
* A parsed timestamp column cell is `Option Int`: `some t` is a datetime value,
  `none` is pandas `NaT`.  Any comparison `NaT > x` or `x > NaT` is `False` in
  pandas, which `gtNaT` reproduces, and `NaT + Timedelta = NaT` (`addDay`).
* A raw (pre-`pd.to_datetime`) cell is `TSVal`: a parseable string, an
  unparseable string, a null, or an already-parsed datetime / `NaT`.
  `pd.to_datetime` with the default `errors="raise"` raises on an unparseable
  string and maps nulls to `NaT`.
* A pandas DataFrame is a `Table`: a record of which columns exist plus a list
  of rows.  `groupby` with the default `dropna=True` drops rows with a null
  group key; with `sort=False` groups appear in order of first occurrence, and
  with `sort=True` (default, used by `generate_daily_summary`) groups are
  ordered by key.  `groupby([...])` on a missing column raises `KeyError`.
* `sort_values` is modelled as a stable sort with nulls last
  (`na_position="last"`).
-/

namespace TasReconcile

/-- `.date()` of a timestamp in seconds: floor division by 86400. -/
def dateOf (t : Int) : Int := t / 86400

/-- `.time()` of a timestamp in seconds: seconds past midnight, in `[0, 86400)`. -/
def tod (t : Int) : Int := t % 86400

/-- A cell of the "Reader Read Time" column before `pd.to_datetime`:
raw parseable string, raw unparseable string, raw null, parsed datetime, `NaT`. -/
inductive TSVal where
  | rawStr (t : Int)
  | rawBad
  | rawNull
  | dtv (t : Int)
  | tNaT
deriving DecidableEq

/-- An input row of the `reconcile` pipeline (columns of the input DataFrame;
a field of an absent column is ignored, presence is recorded on `Table`). -/
structure Row where
  plaza_id : Option String
  vehicle_reg_no : Option String
  reader_read_time : TSVal
  project_name : Option String
  plaza_name : Option String
deriving DecidableEq

/-- An input DataFrame: which columns are present, plus the rows. -/
structure Table where
  has_plaza_id : Bool
  has_vehicle_reg_no : Bool
  has_reader_read_time : Bool
  has_project_name : Bool
  has_plaza_name : Bool
  rows : List Row
deriving DecidableEq

/-- A row after `pd.to_datetime` on "Reader Read Time": the timestamp cell is a
datetime (`some t`) or `NaT` (`none`). -/
structure DRow where
  plaza_id : Option String
  vehicle_reg_no : Option String
  reader_read_time : Option Int
  project_name : Option String
  plaza_name : Option String
deriving DecidableEq

/-- A row after `calculate_trip_count` added the "TripCount" column. -/
structure TRow extends DRow where
  trip_count : Nat
deriving DecidableEq

/-- A row after `calculate_report_date` added the "ReportDate" column
(`none` models a null report date). -/
structure RRow extends TRow where
  report_date : Option Int
deriving DecidableEq

/-- A row after `determine_nap_qualification` added "IsQualifiedNAP". -/
structure QRow extends RRow where
  is_qualified_nap : Bool
deriving DecidableEq

/-- A row of the daily summary DataFrame.  Its key columns are non-optional:
`groupby` with `dropna=True` only forms groups from fully non-null keys. -/
structure SumRow where
  project_name : String
  plaza_id : String
  plaza_name : String
  report_date : Int
  atp : Nat
  nap : Nat
deriving DecidableEq

/-! ### Stable sorting (model of `sort_values`) -/

/-- Insert `x` before the first element strictly greater than it (so after all
earlier elements it ties with): the insertion step of a stable sort. -/
def insertBy (lt : α → α → Bool) (x : α) : List α → List α
  | [] => [x]
  | y :: ys => if lt x y then x :: y :: ys else y :: insertBy lt x ys

/-- Stable insertion sort: elements are inserted in input order, each after
its equals, modelling a stable `sort_values`. -/
def sortBy (lt : α → α → Bool) (l : List α) : List α :=
  l.foldl (fun acc x => insertBy lt x acc) []

/-- Strict order on parsed timestamp cells with `NaT` last
(`sort_values(..., na_position="last")`). -/
def ltTime : Option Int → Option Int → Bool
  | some a, some b => decide (a < b)
  | some _, none => true
  | none, _ => false

/-- Lexicographic code-point order on character lists: Python's `<` on the
string keys that `sort_values` compares. -/
def charsLt : List Char → List Char → Bool
  | [], [] => false
  | [], _ :: _ => true
  | _ :: _, [] => false
  | a :: as, b :: bs =>
    if a.toNat < b.toNat then true
    else if b.toNat < a.toNat then false
    else charsLt as bs

/-- Python string comparison (lexicographic by code point). -/
def pyStrLt (a b : String) : Bool := charsLt a.data b.data

/-- Strict order on optional strings with nulls last. -/
def ltOptStr : Option String → Option String → Bool
  | some a, some b => pyStrLt a b
  | some _, none => true
  | none, _ => false

/-! ### The trip-count walk of `calc_tripcount` -/

/-- Pandas comparison `t > we` on datetime cells: any comparison involving
`NaT` is `False`. -/
def gtNaT : Option Int → Option Int → Bool
  | some a, some b => decide (b < a)
  | _, _ => false

/-- `ts + pd.Timedelta(hours=24)`: adding to `NaT` gives `NaT`. -/
def addDay : Option Int → Option Int
  | some t => some (t + 86400)
  | none => none

/-- One iteration of the loop in `calc_tripcount`.  The state is
`(window_start, trip_count)`, with outer `none` for "no window open"
(`window_start is None`); the source keeps `window_end`, which is always
`window_start + 24h`, so the reset test `t > window_end` is
`gtNaT t (addDay ws)`.  Returns the emitted `(trip_count, window_start)`. -/
def stepE : Option (Option Int) → Nat → Option Int → Nat × Option Int
  | none, _, t => (1, t)
  | some ws, c, t => if gtNaT t (addDay ws) then (1, t) else (c + 1, ws)

/-- The loop of `calc_tripcount` over the sorted timestamps, emitting at each
transaction the assigned `trip_count` together with the window start in force. -/
def walkTrace : List (Option Int) → Option (Option Int) → Nat → List (Nat × Option Int)
  | [], _, _ => []
  | t :: rest, st, c =>
    stepE st c t :: walkTrace rest (some (stepE st c t).2) (stepE st c t).1

/-- The `trip_counts` list built by `calc_tripcount` (initial state:
`window_start = None`, `trip_count = 0`). -/
def tripCounts (ts : List (Option Int)) : List Nat :=
  (walkTrace ts none 0).map Prod.fst

/-- The window start in force at each position of the walk. -/
def windowStarts (ts : List (Option Int)) : List (Option Int) :=
  (walkTrace ts none 0).map Prod.snd

/-- `calc_tripcount(group)`: sort the group by "Reader Read Time" (nulls last),
run the walk, and attach the resulting "TripCount" column. -/
def calc_tripcount (g : List DRow) : List TRow :=
  let sorted := sortBy (fun a b => ltTime a.reader_read_time b.reader_read_time) g
  List.zipWith (fun r c => { toDRow := r, trip_count := c })
    sorted (tripCounts (sorted.map (·.reader_read_time)))

/-! ### `calculate_trip_count`: groupby PlazaID, Vehicle Reg. No. -/

/-- The `groupby(["PlazaID", "Vehicle Reg. No."])` key of a row; `none` when
either key cell is null (such rows are dropped, `dropna=True`). -/
def keyOf (r : DRow) : Option (String × String) :=
  match r.plaza_id, r.vehicle_reg_no with
  | some p, some v => some (p, v)
  | _, _ => none

/-- One step of collecting group keys: append an unseen non-null key. -/
def fkStep (acc : List (String × String)) (r : DRow) : List (String × String) :=
  match keyOf r with
  | some k => if k ∈ acc then acc else acc ++ [k]
  | none => acc

/-- Distinct non-null group keys in order of first occurrence
(`groupby(..., sort=False)`). -/
def firstKeys (rows : List DRow) : List (String × String) :=
  rows.foldl fkStep []

/-- The rows of one group, in original order. -/
def groupRows (rows : List DRow) (k : String × String) : List DRow :=
  rows.filter (fun r => keyOf r = some k)

/-- `calculate_trip_count`: apply `calc_tripcount` per (PlazaID, Vehicle
Reg. No.) group and concatenate groups in first-occurrence order
(`sort=False, group_keys=False`); rows with a null key are dropped by
`groupby(dropna=True)`. -/
def calculate_trip_count (rows : List DRow) : List TRow :=
  (firstKeys rows).flatMap (fun k => calc_tripcount (groupRows rows k))

/-! ### `calculate_report_date` -/

/-- The inner `report_date(ts)` of `calculate_report_date`: null gives null;
a time-of-day strictly before 08:00 (28800 s) attributes the transaction to
`(ts - 1 day).date()`, otherwise to `ts.date()`. -/
def report_date : Option Int → Option Int
  | none => none
  | some ts => if tod ts < 28800 then some (dateOf (ts - 86400)) else some (dateOf ts)

/-- `calculate_report_date`: apply `report_date` to the "Reader Read Time"
column and attach the result as "ReportDate". -/
def calculate_report_date (rows : List TRow) : List RRow :=
  rows.map (fun r => { toTRow := r, report_date := report_date r.reader_read_time })

/-! ### `determine_nap_qualification` -/

/-- `determine_nap_qualification`: `IsQualifiedNAP = (TripCount <= 2)`,
row-locally. -/
def determine_nap_qualification (rows : List RRow) : List QRow :=
  rows.map (fun r => { toRRow := r, is_qualified_nap := decide (r.trip_count ≤ 2) })

/-! ### `generate_daily_summary` -/

/-- The `groupby(["ProjectName", "PlazaID", "PlazaName", "ReportDate"])` key of
a reconciled row; `none` when any key cell is null (dropped, `dropna=True`). -/
def sumKeyOf (r : QRow) : Option (String × String × String × Int) :=
  match r.project_name, r.plaza_id, r.plaza_name, r.report_date with
  | some pr, some pid, some pn, some rd => some (pr, pid, pn, rd)
  | _, _, _, _ => none

/-- Distinct non-null summary keys in order of first occurrence. -/
def sumFirstKeys (rows : List QRow) : List (String × String × String × Int) :=
  rows.foldl
    (fun acc r =>
      match sumKeyOf r with
      | some k => if k ∈ acc then acc else acc ++ [k]
      | none => acc)
    []

/-- Strict lexicographic order on full summary keys (`groupby` default
`sort=True` orders the groups by key). -/
def ltSumKey (a b : String × String × String × Int) : Bool :=
  pyStrLt a.1 b.1 ||
  (decide (a.1 = b.1) && (pyStrLt a.2.1 b.2.1 ||
    (decide (a.2.1 = b.2.1) && (pyStrLt a.2.2.1 b.2.2.1 ||
      (decide (a.2.2.1 = b.2.2.1) && decide (a.2.2.2 < b.2.2.2))))))

/-- The summary row of one group: `ATP` is pandas `count` of "Reader Read
Time" (non-null cells only), `NAP` is the sum of the boolean "IsQualifiedNAP". -/
def aggFor (rows : List QRow) (k : String × String × String × Int) : SumRow :=
  let g := rows.filter (fun r => sumKeyOf r = some k)
  { project_name := k.1, plaza_id := k.2.1, plaza_name := k.2.2.1,
    report_date := k.2.2.2,
    atp := g.countP (fun r => r.reader_read_time.isSome),
    nap := g.countP (fun r => r.is_qualified_nap) }

/-- Strict order for the final `sort_values(["ProjectName", "PlazaID",
"ReportDate"])` of the summary. -/
def ltSumRow (a b : SumRow) : Bool :=
  pyStrLt a.project_name b.project_name ||
  (decide (a.project_name = b.project_name) && (pyStrLt a.plaza_id b.plaza_id ||
    (decide (a.plaza_id = b.plaza_id) && decide (a.report_date < b.report_date))))

/-- `generate_daily_summary`: group by (ProjectName, PlazaID, PlazaName,
ReportDate) — null keys dropped, groups ordered by key — aggregate `ATP` /
`NAP`, then stable-sort by (ProjectName, PlazaID, ReportDate). -/
def generate_daily_summary (rows : List QRow) : List SumRow :=
  sortBy ltSumRow ((sortBy ltSumKey (sumFirstKeys rows)).map (aggFor rows))

/-! ### `reconcile` -/

/-- The errors `reconcile` can raise: the explicit `ValueError` for a missing
required column, the `pd.to_datetime` parse error, and the `KeyError` raised
by `generate_daily_summary`'s groupby on a missing column. -/
inductive RecErr where
  | missingColumn (c : String)
  | parseFail
  | keyErr (c : String)
deriving DecidableEq

/-- `pd.to_datetime` on one cell (`errors="raise"`): `none` models the raised
parse error on an unparseable string; nulls become `NaT`; datetimes pass
through. -/
def to_dt : TSVal → Option (Option Int)
  | .rawStr t => some (some t)
  | .rawBad => none
  | .rawNull => some none
  | .dtv t => some (some t)
  | .tNaT => some none

/-- The "Reader Read Time" cell written back into the caller's DataFrame by
`df["Reader Read Time"] = pd.to_datetime(df["Reader Read Time"])`: parsed
values replace raw ones in place. -/
def coerceTS : TSVal → TSVal
  | .rawStr t => .dtv t
  | .rawBad => .rawBad
  | .rawNull => .tNaT
  | .dtv t => .dtv t
  | .tNaT => .tNaT

/-- `pd.to_datetime` over the column: fails if any cell is unparseable,
otherwise yields the parsed rows. -/
def parseCol : List Row → Option (List DRow)
  | [] => some []
  | r :: rest =>
    match to_dt r.reader_read_time, parseCol rest with
    | some t, some ds =>
      some ({ plaza_id := r.plaza_id, vehicle_reg_no := r.vehicle_reg_no,
              reader_read_time := t, project_name := r.project_name,
              plaza_name := r.plaza_name } :: ds)
    | _, _ => none

/-- Strict order for `sort_values(["PlazaID", "Vehicle Reg. No.",
"Reader Read Time"])` in `reconcile` (nulls last per column). -/
def ltRow (a b : DRow) : Bool :=
  ltOptStr a.plaza_id b.plaza_id ||
  (decide (a.plaza_id = b.plaza_id) && (ltOptStr a.vehicle_reg_no b.vehicle_reg_no ||
    (decide (a.vehicle_reg_no = b.vehicle_reg_no) &&
      ltTime a.reader_read_time b.reader_read_time)))

/-- One row of the caller's DataFrame after the in-place column assignment. -/
def coerceRow (r : Row) : Row :=
  { r with reader_read_time := coerceTS r.reader_read_time }

/-- The caller's DataFrame after `df["Reader Read Time"] =
pd.to_datetime(df["Reader Read Time"])` mutated it in place. -/
def mutatedOf (tbl : Table) : Table :=
  { tbl with rows := tbl.rows.map coerceRow }

/-- The reconciled rows: sort by (PlazaID, Vehicle Reg. No., Reader Read
Time), then the three row-level stages in order. -/
def pipelineOf (ds : List DRow) : List QRow :=
  determine_nap_qualification
    (calculate_report_date (calculate_trip_count (sortBy ltRow ds)))

/-- `ReconciliationEngine.reconcile`: check the three required columns
(`ValueError` naming the first missing one), coerce "Reader Read Time" in
place on the caller's DataFrame (the first returned `Table` is the caller's
table after the call), sort, run the four stages, and build the summary —
whose groupby raises `KeyError` if "ProjectName" or "PlazaName" is absent.
Returns (caller's table after the call, reconciled rows, daily summary). -/
def reconcile (tbl : Table) : Except RecErr (Table × List QRow × List SumRow) :=
  if !tbl.has_plaza_id then .error (.missingColumn "PlazaID")
  else if !tbl.has_vehicle_reg_no then .error (.missingColumn "Vehicle Reg. No.")
  else if !tbl.has_reader_read_time then .error (.missingColumn "Reader Read Time")
  else
    match parseCol tbl.rows with
    | none => .error .parseFail
    | some drows =>
      if !tbl.has_project_name then .error (.keyErr "ProjectName")
      else if !tbl.has_plaza_name then .error (.keyErr "PlazaName")
      else
        .ok (mutatedOf tbl, pipelineOf drows,
             generate_daily_summary (pipelineOf drows))

/-! ### Generic list lemmas -/

theorem mem_insertBy {lt : α → α → Bool} {x a : α} {l : List α} :
    a ∈ insertBy lt x l ↔ a = x ∨ a ∈ l := by
  induction l with
  | nil => simp [insertBy]
  | cons y ys ih =>
    simp only [insertBy]
    split
    · simp
    · simp only [List.mem_cons, ih]
      tauto

theorem mem_sortBy_aux {lt : α → α → Bool} {a : α} (l acc : List α) :
    a ∈ l.foldl (fun acc x => insertBy lt x acc) acc ↔ a ∈ acc ∨ a ∈ l := by
  induction l generalizing acc with
  | nil => simp
  | cons y ys ih =>
    simp only [List.foldl_cons, ih, mem_insertBy, List.mem_cons]
    tauto

theorem mem_sortBy {lt : α → α → Bool} {a : α} {l : List α} :
    a ∈ sortBy lt l ↔ a ∈ l := by
  simp [sortBy, mem_sortBy_aux]

theorem mem_zipWith {f : α → β → γ} {c : γ} :
    ∀ {as : List α} {bs : List β}, c ∈ List.zipWith f as bs →
      ∃ a b, a ∈ as ∧ b ∈ bs ∧ c = f a b
  | [], _, h => by simp at h
  | _ :: _, [], h => by simp at h
  | a :: as, b :: bs, h => by
    simp only [List.zipWith_cons_cons, List.mem_cons] at h
    rcases h with h | h
    · exact ⟨a, b, by simp, by simp, h⟩
    · obtain ⟨a', b', ha, hb, hc⟩ := mem_zipWith h
      exact ⟨a', b', by simp [ha], by simp [hb], hc⟩

/-! ### Lemmas about the trip-count walk -/

theorem walkTrace_pos {p : Nat × Option Int} :
    ∀ {ts : List (Option Int)} {st : Option (Option Int)} {c : Nat},
      p ∈ walkTrace ts st c → 1 ≤ p.1
  | [], _, _, h => by simp [walkTrace] at h
  | t :: rest, st, c, h => by
    simp only [walkTrace, List.mem_cons] at h
    rcases h with h | h
    · subst h
      cases st with
      | none => simp [stepE]
      | some ws =>
        simp only [stepE]
        split <;> simp
    · exact walkTrace_pos h

theorem walkTrace_length :
    ∀ (ts : List (Option Int)) (st : Option (Option Int)) (c : Nat),
      (walkTrace ts st c).length = ts.length
  | [], _, _ => rfl
  | _ :: rest, st, c => by
    simp [walkTrace, walkTrace_length rest]

/-- Adjacent entries of the walk are related by `stepE`: the state entering
position `i + 1` is exactly the `(trip_count, window_start)` emitted at `i`. -/
theorem walkTrace_succ :
    ∀ {ts : List (Option Int)} {st : Option (Option Int)} {c : Nat} {i : Nat}
      {a : Nat × Option Int} {t : Option Int},
      (walkTrace ts st c)[i]? = some a → ts[i + 1]? = some t →
      (walkTrace ts st c)[i + 1]? = some (stepE (some a.2) a.1 t)
  | [], _, _, _, _, _, ha, _ => by simp [walkTrace] at ha
  | t0 :: rest, st, c, 0, a, t, ha, ht => by
    simp only [walkTrace, List.getElem?_cons_zero, Option.some.injEq] at ha
    simp only [List.getElem?_cons_succ, List.getElem?_cons_zero] at ht ⊢
    subst ha
    cases rest with
    | nil => simp at ht
    | cons t1 rest' =>
      simp only [List.getElem?_cons_zero, Option.some.injEq] at ht
      subst ht
      simp [walkTrace]
  | t0 :: rest, st, c, i + 1, a, t, ha, ht => by
    simp only [walkTrace, List.getElem?_cons_succ] at ha ht ⊢
    exact walkTrace_succ ha ht

theorem tripCounts_getElem? {ts : List (Option Int)} {i : Nat} {c : Nat}
    (h : (tripCounts ts)[i]? = some c) :
    ∃ p, (walkTrace ts none 0)[i]? = some p ∧ p.1 = c := by
  simp only [tripCounts, List.getElem?_map] at h
  cases hp : (walkTrace ts none 0)[i]? with
  | none => simp [hp] at h
  | some p =>
    refine ⟨p, rfl, ?_⟩
    simp [hp] at h
    exact h

theorem windowStarts_getElem? {ts : List (Option Int)} {i : Nat} {w : Option Int}
    (h : (windowStarts ts)[i]? = some w) :
    ∃ p, (walkTrace ts none 0)[i]? = some p ∧ p.2 = w := by
  simp only [windowStarts, List.getElem?_map] at h
  cases hp : (walkTrace ts none 0)[i]? with
  | none => simp [hp] at h
  | some p =>
    refine ⟨p, rfl, ?_⟩
    simp [hp] at h
    exact h

/-- C1.  For a partition of non-null parseable timestamps (`ts.map some`),
`calc_tripcount`'s walk assigns: (i) a positive count at every position;
(ii) count 1 at the first transaction; (iii) at each subsequent transaction
with timestamp `t`, when the window start in force is `w`, the count
increases by exactly 1 if `t ≤ w + 24h` and resets to 1 exactly otherwise
(so a transaction at exactly `w + 24h` stays in the window and one a second
later starts a new one); (iv) a singleton partition gets count 1. -/
theorem trip_count_window_law (ts : List Int) :
    (∀ (i c : Nat), (tripCounts (ts.map some))[i]? = some c → 1 ≤ c)
    ∧ (∀ (t : Int) rest, ts = t :: rest → (tripCounts (ts.map some))[0]? = some 1)
    ∧ (∀ (i : Nat) (w : Int) (c : Nat) (t : Int),
        (windowStarts (ts.map some))[i]? = some (some w) →
        (tripCounts (ts.map some))[i]? = some c →
        ts[i + 1]? = some t →
        (tripCounts (ts.map some))[i + 1]?
          = some (if t ≤ w + 86400 then c + 1 else 1))
    ∧ (∀ t : Int, tripCounts [some t] = [1]) := by
  refine ⟨?_, ?_, ?_, ?_⟩
  · intro i c h
    obtain ⟨p, hp, hpc⟩ := tripCounts_getElem? h
    exact hpc ▸ walkTrace_pos (List.getElem?_mem hp)
  · intro t rest h
    subst h
    simp [tripCounts, walkTrace, stepE]
  · intro i w c t hw hc ht
    obtain ⟨p, hp, hpc⟩ := tripCounts_getElem? hc
    obtain ⟨q, hq, hqw⟩ := windowStarts_getElem? hw
    have hpq : p = q := by
      rw [hp] at hq
      exact Option.some_inj.mp hq
    subst hpq
    have htm : (ts.map some)[i + 1]? = some (some t) := by
      simp [List.getElem?_map, ht]
    have hnext := walkTrace_succ hp htm
    rw [hqw, hpc] at hnext
    have hstep : (stepE (some (some w)) c (some t)).1
        = if t ≤ w + 86400 then c + 1 else 1 := by
      simp only [stepE, addDay, gtNaT]
      by_cases hle : t ≤ w + 86400
      · rw [if_pos hle, if_neg (by simpa using not_lt.mpr hle)]
      · rw [if_neg hle, if_pos (by simpa using not_le.mp hle)]
    simp [tripCounts, List.getElem?_map, hnext, hstep]
  · intro t
    simp [tripCounts, walkTrace, stepE]

/-- Witness for C1 on the reference scenario (reads at 10:00, 14:00, 18:00
and 11:00 the next day, in seconds): the fourth read is more than 24h after
the window start 36000, so its count resets to 1; the first read gets 1. -/
theorem trip_count_window_law_witness :
    (tripCounts ([36000, 50400, 64800, 126000].map (fun t : Int => some t)))[3]?
        = some 1
      ∧ (tripCounts ([36000, 50400, 64800, 126000].map (fun t : Int => some t)))[0]?
        = some 1 := by
  constructor
  · have h := (trip_count_window_law [36000, 50400, 64800, 126000]).2.2.1
      2 36000 3 126000 (by decide) (by decide) (by decide)
    rw [h]
    norm_num
  · exact (trip_count_window_law [36000, 50400, 64800, 126000]).2.1
      36000 [50400, 64800, 126000] rfl

/-- C2.  `calculate_report_date`: a null timestamp yields a null report date;
a time-of-day strictly before 08:00:00 (28800 s) yields the previous calendar
date; 08:00:00 or later yields the same calendar date; and the "ReportDate"
column is exactly `report_date` applied to "Reader Read Time" row by row. -/
theorem report_date_cutoff_law (t : Int) :
    report_date none = none
    ∧ (tod t < 28800 → report_date (some t) = some (dateOf t - 1))
    ∧ (28800 ≤ tod t → report_date (some t) = some (dateOf t))
    ∧ (∀ rows : List TRow,
        (calculate_report_date rows).map (fun r => r.report_date)
          = rows.map (fun r => report_date r.reader_read_time)) := by
  refine ⟨rfl, ?_, ?_, ?_⟩
  · intro h
    have hshift : dateOf (t - 86400) = dateOf t - 1 := by
      simp only [dateOf]
      omega
    simp [report_date, h, hshift]
  · intro h
    simp [report_date, not_lt.mpr h]
  · intro rows
    simp [calculate_report_date, List.map_map]

/-- Witness for C2: 07:59:59 on day 100 (`t = 100·86400 + 28799`) reports to
day 99, 08:00:00 exactly reports to day 100. -/
theorem report_date_cutoff_law_witness :
    report_date (some (100 * 86400 + 28799)) = some 99
      ∧ report_date (some (100 * 86400 + 28800)) = some 100 := by
  constructor
  · have h := (report_date_cutoff_law (100 * 86400 + 28799)).2.1 (by decide)
    rw [h]
    decide
  · have h := (report_date_cutoff_law (100 * 86400 + 28800)).2.2.1 (by decide)
    rw [h]
    decide

/-- C4.  `determine_nap_qualification` keeps every row (same length), is
row-local (row `i` of the output is row `i` of the input with the
"IsQualifiedNAP" column attached), and on every output row
`is_qualified_nap = true` exactly when `trip_count ≤ 2`. -/
theorem nap_qualification_law (rows : List RRow) :
    (determine_nap_qualification rows).length = rows.length
    ∧ (∀ (i : Nat) (r : QRow), (determine_nap_qualification rows)[i]? = some r →
        ∃ x, rows[i]? = some x
          ∧ r = { toRRow := x, is_qualified_nap := decide (x.trip_count ≤ 2) })
    ∧ (∀ r ∈ determine_nap_qualification rows,
        r.is_qualified_nap = true ↔ r.trip_count ≤ 2) := by
  refine ⟨by simp [determine_nap_qualification], ?_, ?_⟩
  · intro i r h
    simp only [determine_nap_qualification, List.getElem?_map] at h
    cases hx : rows[i]? with
    | none => simp [hx] at h
    | some x =>
      refine ⟨x, rfl, ?_⟩
      simp only [hx, Option.map_some] at h
      exact (Option.some_inj.mp h).symm
  · intro r hr
    simp only [determine_nap_qualification, List.mem_map] at hr
    obtain ⟨x, _, hx⟩ := hr
    subst hx
    simp

/-- Witness for C4 at a concrete two-row input: trip counts 2 and 3 classify
as NAP and not-NAP respectively, and row 0 of the output is row 0 of the
input plus the new column. -/
theorem nap_qualification_law_witness :
    (determine_nap_qualification
        [{ plaza_id := some "123", vehicle_reg_no := some "V",
           reader_read_time := some 0, project_name := some "P",
           plaza_name := some "N", trip_count := 2, report_date := some 0 },
         { plaza_id := some "123", vehicle_reg_no := some "V",
           reader_read_time := some 10, project_name := some "P",
           plaza_name := some "N", trip_count := 3, report_date := some 0 }]).map
      (fun r => r.is_qualified_nap) = [true, false] := by
  have h := (nap_qualification_law
    [{ plaza_id := some "123", vehicle_reg_no := some "V",
       reader_read_time := some 0, project_name := some "P",
       plaza_name := some "N", trip_count := 2, report_date := some 0 },
     { plaza_id := some "123", vehicle_reg_no := some "V",
       reader_read_time := some 10, project_name := some "P",
       plaza_name := some "N", trip_count := 3, report_date := some 0 }]).2.1
  have h0 := h 0 _ rfl
  have h1 := h 1 _ rfl
  decide

/-- C7.  `reconcile` is deterministic: invoking it on equal input tables
(same rows, same values, same order, same columns) yields equal results —
the engine has no state besides its argument. -/
theorem reconcile_deterministic (t1 t2 : Table) (h : t1 = t2) :
    reconcile t1 = reconcile t2 := by
  rw [h]

/-- Witness for C7 at a concrete one-row table. -/
theorem reconcile_deterministic_witness :
    reconcile
        { has_plaza_id := true, has_vehicle_reg_no := true,
          has_reader_read_time := true, has_project_name := true,
          has_plaza_name := true,
          rows := [{ plaza_id := some "123", vehicle_reg_no := some "V",
                     reader_read_time := .rawStr 36000,
                     project_name := some "P", plaza_name := some "N" }] }
      = reconcile
        { has_plaza_id := true, has_vehicle_reg_no := true,
          has_reader_read_time := true, has_project_name := true,
          has_plaza_name := true,
          rows := [{ plaza_id := some "123", vehicle_reg_no := some "V",
                     reader_read_time := .rawStr 36000,
                     project_name := some "P", plaza_name := some "N" }] } :=
  reconcile_deterministic _ _ rfl

/-! ### Concrete example tables -/

/-- A fully populated input row for plaza `123`, vehicle `MH01AB1234`. -/
def exRow (t : TSVal) : Row :=
  { plaza_id := some "123", vehicle_reg_no := some "MH01AB1234",
    reader_read_time := t, project_name := some "P1",
    plaza_name := some "Plaza1" }

/-- An input table with all five columns present and the given rows. -/
def exTbl (rs : List Row) : Table :=
  { has_plaza_id := true, has_vehicle_reg_no := true,
    has_reader_read_time := true, has_project_name := true,
    has_plaza_name := true, rows := rs }

/-- One row whose "Reader Read Time" is an unparseable string. -/
def exTblBad : Table := exTbl [exRow .rawBad]

/-- A 10:00 read followed by a row with a null "Reader Read Time". -/
def exTblNull : Table := exTbl [exRow (.rawStr 36000), exRow .rawNull]

/-- A valid table except that the "ProjectName" column is absent. -/
def exTblNoProj : Table :=
  { exTbl [exRow (.rawStr 36000)] with has_project_name := false }

/-- A one-row table whose timestamp cell is a raw (unparsed) string. -/
def exTblRaw : Table := exTbl [exRow (.rawStr 36000)]

/-- `exTblRaw` after `reconcile` coerced the timestamp column in place. -/
def exTblRawAfter : Table := exTbl [exRow (.dtv 36000)]

/-- A one-row table whose timestamp cell is already a parsed datetime. -/
def exTblDt : Table := exTbl [exRow (.dtv 36000)]

/-- The parsed rows of `exTblDt`. -/
def exDRowsDt : List DRow :=
  [{ plaza_id := some "123", vehicle_reg_no := some "MH01AB1234",
     reader_read_time := some 36000, project_name := some "P1",
     plaza_name := some "Plaza1" }]

/-! ### Lemmas about `parseCol` and the pipeline rows -/

theorem parseCol_isSome :
    ∀ rows : List Row, (∀ r ∈ rows, r.reader_read_time ≠ TSVal.rawBad) →
      (parseCol rows).isSome = true
  | [], _ => rfl
  | r :: rest, h => by
    have ih := parseCol_isSome rest (fun x hx => h x (List.mem_cons_of_mem _ hx))
    obtain ⟨ds, hds⟩ := Option.isSome_iff_exists.mp ih
    cases hv : r.reader_read_time with
    | rawBad => exact absurd hv (h r (List.mem_cons_self _ _))
    | rawStr t => simp [parseCol, hv, hds, to_dt]
    | rawNull => simp [parseCol, hv, hds, to_dt]
    | dtv t => simp [parseCol, hv, hds, to_dt]
    | tNaT => simp [parseCol, hv, hds, to_dt]

theorem parseCol_ex (rows : List Row)
    (h : ∀ r ∈ rows, r.reader_read_time ≠ TSVal.rawBad) :
    ∃ ds, parseCol rows = some ds :=
  Option.isSome_iff_exists.mp (parseCol_isSome rows h)

theorem reconcile_eq_ok (tbl : Table) (ds : List DRow)
    (h1 : tbl.has_plaza_id = true) (h2 : tbl.has_vehicle_reg_no = true)
    (h3 : tbl.has_reader_read_time = true) (h4 : tbl.has_project_name = true)
    (h5 : tbl.has_plaza_name = true) (hp : parseCol tbl.rows = some ds) :
    reconcile tbl
      = .ok (mutatedOf tbl, pipelineOf ds,
             generate_daily_summary (pipelineOf ds)) := by
  simp [reconcile, h1, h2, h3, h4, h5, hp]

theorem reconcile_ok_inv (tbl : Table) (out : Table × List QRow × List SumRow)
    (h : reconcile tbl = .ok out) :
    ∃ ds, parseCol tbl.rows = some ds
      ∧ out = (mutatedOf tbl, pipelineOf ds,
               generate_daily_summary (pipelineOf ds)) := by
  unfold reconcile at h
  cases h1 : tbl.has_plaza_id <;> rw [h1] at h <;> simp at h
  cases h2 : tbl.has_vehicle_reg_no <;> rw [h2] at h <;> simp at h
  cases h3 : tbl.has_reader_read_time <;> rw [h3] at h <;> simp at h
  cases hp : parseCol tbl.rows with
  | none => rw [hp] at h; simp at h
  | some ds =>
    rw [hp] at h
    cases h4 : tbl.has_project_name <;> rw [h4] at h <;> simp at h
    cases h5 : tbl.has_plaza_name <;> rw [h5] at h <;> simp at h
    exact ⟨ds, rfl, h.symm⟩

theorem trip_pos_calc {rows : List DRow} :
    ∀ r ∈ calculate_trip_count rows, 1 ≤ r.trip_count := by
  intro r hr
  simp only [calculate_trip_count, List.mem_flatMap] at hr
  obtain ⟨k, _, hrk⟩ := hr
  simp only [calc_tripcount] at hrk
  obtain ⟨a, b, _, hb, rfl⟩ := mem_zipWith hrk
  simp only [tripCounts, List.mem_map] at hb
  obtain ⟨p, hp, hpb⟩ := hb
  exact hpb ▸ walkTrace_pos hp

theorem pipeline_row_props {ds : List DRow} :
    ∀ r ∈ pipelineOf ds,
      1 ≤ r.trip_count ∧ r.report_date = report_date r.reader_read_time := by
  intro r hr
  simp only [pipelineOf, determine_nap_qualification, List.mem_map] at hr
  obtain ⟨x, hx, rfl⟩ := hr
  simp only [calculate_report_date, List.mem_map] at hx
  obtain ⟨y, hy, rfl⟩ := hx
  exact ⟨trip_pos_calc y hy, rfl⟩

theorem sumKeyOf_eq_none {r : QRow} (h : r.report_date = none) :
    sumKeyOf r = none := by
  cases hp : r.project_name <;> cases hq : r.plaza_id <;>
    cases hn : r.plaza_name <;> simp [sumKeyOf, hp, hq, hn, h]

/-- C3's counterexample: (i) a row with an unparseable "Reader Read Time"
string makes `reconcile` raise (`pd.to_datetime` with the default
`errors="raise"`), contradicting "never throws"; (ii) a row with a null
timestamp stays in the reconciled output but carries trip_count 2 — a
numeric value, not null — because `NaT > window_end` is `False`, so the row
falls into the "within current window" branch and increments the counter. -/
theorem unparseable_or_null_cex :
    reconcile exTblBad = .error .parseFail
      ∧ (reconcile exTblNull).toOption.map
          (fun x => x.2.1.map (fun r => (r.trip_count, r.report_date)))
        = some [(1, some 0), (2, none)] := by
  have hb : (reconcile exTblNull).toOption.map
      (fun x => x.2.1.map (fun r => (r.trip_count, r.report_date)))
      = some [(1, some 0), (2, none)] := rfl
  exact ⟨rfl, hb⟩

/-- C3 as amended.  If every required column is present and no timestamp cell
is an unparseable string, `reconcile` succeeds, and in the reconciled output:
every row (null-timestamp rows included) carries a positive integer — not
null — trip_count; a row with a null timestamp carries a null report_date;
and any row with a null report_date has a null summary grouping key, so it is
excluded from the daily aggregation (which only forms groups from non-null
keys).  Rows with unparseable timestamp strings instead make the whole call
raise, per the counterexample. -/
theorem null_rows_amended (tbl : Table)
    (h1 : tbl.has_plaza_id = true) (h2 : tbl.has_vehicle_reg_no = true)
    (h3 : tbl.has_reader_read_time = true) (h4 : tbl.has_project_name = true)
    (h5 : tbl.has_plaza_name = true)
    (hgood : ∀ r ∈ tbl.rows, r.reader_read_time ≠ TSVal.rawBad) :
    ∃ out, reconcile tbl = .ok out
      ∧ (∀ r ∈ out.2.1, 1 ≤ r.trip_count)
      ∧ (∀ r ∈ out.2.1, r.reader_read_time = none → r.report_date = none)
      ∧ (∀ r ∈ out.2.1, r.report_date = none → sumKeyOf r = none) := by
  obtain ⟨ds, hds⟩ := parseCol_ex tbl.rows hgood
  refine ⟨_, reconcile_eq_ok tbl ds h1 h2 h3 h4 h5 hds, ?_, ?_, ?_⟩
  · intro r hr
    exact (pipeline_row_props r hr).1
  · intro r hr hnull
    rw [(pipeline_row_props r hr).2, hnull]
    rfl
  · intro r _ h
    exact sumKeyOf_eq_none h

/-- Witness for C3's amended theorem at the concrete table with one valid and
one null-timestamp row. -/
theorem null_rows_amended_witness :
    ∃ out, reconcile exTblNull = .ok out
      ∧ (∀ r ∈ out.2.1, 1 ≤ r.trip_count)
      ∧ (∀ r ∈ out.2.1, r.reader_read_time = none → r.report_date = none)
      ∧ (∀ r ∈ out.2.1, r.report_date = none → sumKeyOf r = none) :=
  null_rows_amended exTblNull rfl rfl rfl rfl rfl (by decide)

/-- C6's counterexample: on a table that has the three required columns but
lacks "ProjectName", `reconcile` does not return degraded output tables — the
summary's `groupby` raises `KeyError("ProjectName")` and the call fails. -/
theorem optional_column_cex :
    reconcile exTblNoProj = .error (.keyErr "ProjectName") := rfl

/-- C6 as amended.  `reconcile` fails immediately with an error naming the
missing column when any of the three required columns is absent (checked in
order PlazaID, Vehicle Reg. No., Reader Read Time); and when only
"ProjectName" or "PlazaName" is absent the call still fails — with the
`KeyError` of the summary's groupby naming that column — instead of
returning output tables with degraded summary completeness. -/
theorem missing_column_behavior (tbl : Table) :
    (tbl.has_plaza_id = false → reconcile tbl = .error (.missingColumn "PlazaID"))
    ∧ (tbl.has_plaza_id = true → tbl.has_vehicle_reg_no = false →
        reconcile tbl = .error (.missingColumn "Vehicle Reg. No."))
    ∧ (tbl.has_plaza_id = true → tbl.has_vehicle_reg_no = true →
        tbl.has_reader_read_time = false →
        reconcile tbl = .error (.missingColumn "Reader Read Time"))
    ∧ (∀ ds, tbl.has_plaza_id = true → tbl.has_vehicle_reg_no = true →
        tbl.has_reader_read_time = true → parseCol tbl.rows = some ds →
        tbl.has_project_name = false →
        reconcile tbl = .error (.keyErr "ProjectName"))
    ∧ (∀ ds, tbl.has_plaza_id = true → tbl.has_vehicle_reg_no = true →
        tbl.has_reader_read_time = true → parseCol tbl.rows = some ds →
        tbl.has_project_name = true → tbl.has_plaza_name = false →
        reconcile tbl = .error (.keyErr "PlazaName")) := by
  refine ⟨?_, ?_, ?_, ?_, ?_⟩
  · intro h
    simp [reconcile, h]
  · intro h1 h
    simp [reconcile, h1, h]
  · intro h1 h2 h
    simp [reconcile, h1, h2, h]
  · intro ds h1 h2 h3 hp h
    simp [reconcile, h1, h2, h3, hp, h]
  · intro ds h1 h2 h3 hp h4 h
    simp [reconcile, h1, h2, h3, hp, h4, h]

/-- Witness for C6's amended theorem: a table lacking "PlazaID" fails with
the `ValueError` naming it, and a table lacking only "PlazaName" fails with
the summary `KeyError` naming it. -/
theorem missing_column_behavior_witness :
    reconcile { exTblRaw with has_plaza_id := false }
        = .error (.missingColumn "PlazaID")
      ∧ reconcile { exTblDt with has_plaza_name := false }
        = .error (.keyErr "PlazaName") := by
  constructor
  · exact (missing_column_behavior _).1 rfl
  · exact (missing_column_behavior _).2.2.2.2 exDRowsDt rfl rfl rfl rfl
      rfl rfl

/-- C8's counterexample: `reconcile` mutates its input.  On a table whose
"Reader Read Time" column holds a raw string, the caller's table after the
call (the first returned component) has that column coerced to datetimes in
place and differs from the table passed in. -/
theorem input_mutation_cex :
    (reconcile exTblRaw).toOption.map Prod.fst = some exTblRawAfter
      ∧ exTblRawAfter ≠ exTblRaw := by
  exact ⟨rfl, by decide⟩

/-- C8 as amended.  Whenever `reconcile` returns, the caller's table is the
input with the "Reader Read Time" column coerced to datetime in place
(`df["Reader Read Time"] = pd.to_datetime(df["Reader Read Time"])`): rows,
order, and every other column are untouched, and when the column already
holds parsed datetimes (or `NaT`) the caller's table is unchanged. -/
theorem input_mutation_amended (tbl : Table)
    (out : Table × List QRow × List SumRow) (h : reconcile tbl = .ok out) :
    out.1 = mutatedOf tbl
    ∧ out.1.rows = tbl.rows.map coerceRow
    ∧ ((∀ r ∈ tbl.rows, coerceTS r.reader_read_time = r.reader_read_time) →
        out.1 = tbl) := by
  obtain ⟨ds, _, hout⟩ := reconcile_ok_inv tbl out h
  have h1 : out.1 = mutatedOf tbl := by rw [hout]
  refine ⟨h1, by rw [h1]; rfl, ?_⟩
  intro hid
  rw [h1]
  have : tbl.rows.map coerceRow = tbl.rows := by
    have := List.map_congr_left (l := tbl.rows) (f := coerceRow) (g := id)
      (fun r hr => by simp [coerceRow, hid r hr])
    simpa using this
  simp [mutatedOf, this]

/-- Witness for C8's amended theorem: on a table whose timestamp cells are
already parsed datetimes, the caller's table is returned unchanged. -/
theorem input_mutation_amended_witness :
    reconcile exTblDt
        = .ok (mutatedOf exTblDt, pipelineOf exDRowsDt,
               generate_daily_summary (pipelineOf exDRowsDt))
      ∧ (mutatedOf exTblDt, pipelineOf exDRowsDt,
         generate_daily_summary (pipelineOf exDRowsDt)).1 = exTblDt := by
  refine ⟨rfl, ?_⟩
  exact (input_mutation_amended exTblDt
    (mutatedOf exTblDt, pipelineOf exDRowsDt,
     generate_daily_summary (pipelineOf exDRowsDt)) rfl).2.2 (by decide)

/-! ### Lemmas for the daily summary -/

theorem sumKeyOf_some_inv {r : QRow} {k : String × String × String × Int}
    (h : sumKeyOf r = some k) :
    r.project_name = some k.1 ∧ r.plaza_id = some k.2.1
      ∧ r.plaza_name = some k.2.2.1 ∧ r.report_date = some k.2.2.2 := by
  cases hp : r.project_name <;> cases hq : r.plaza_id <;>
    cases hn : r.plaza_name <;> cases hd : r.report_date <;>
    simp [sumKeyOf, hp, hq, hn, hd] at h
  subst h
  simp

theorem sumKeyOf_none_of_null {r : QRow}
    (h : r.project_name = none ∨ r.report_date = none) :
    sumKeyOf r = none := by
  cases hp : r.project_name <;> cases hq : r.plaza_id <;>
    cases hn : r.plaza_name <;> cases hd : r.report_date <;>
    simp [sumKeyOf] <;> simp_all

theorem rd_from_ts {tr : List TRow} :
    ∀ r ∈ determine_nap_qualification (calculate_report_date tr),
      r.report_date = report_date r.reader_read_time := by
  intro r hr
  simp only [determine_nap_qualification, List.mem_map] at hr
  obtain ⟨x, hx, rfl⟩ := hr
  simp only [calculate_report_date, List.mem_map] at hx
  obtain ⟨y, _, rfl⟩ := hx
  rfl

/-- C5.  For every row of the daily summary built from the reconciled rows:
`nap ≤ atp`; `atp` equals the number of reconciled rows sharing that row's
(project_name, plaza_id, plaza_name, report_date) grouping key; `nap` equals
the number of those key-sharing rows whose `is_qualified_nap` is true; and a
reconciled row with a null project_name or a null report_date matches no
summary row's key, so such groups contribute no summary row. -/
theorem daily_summary_invariant (tr : List TRow) (rows : List QRow)
    (hrows : rows = determine_nap_qualification (calculate_report_date tr)) :
    ∀ s ∈ generate_daily_summary rows,
      s.nap ≤ s.atp
      ∧ s.atp = rows.countP (fun r =>
          sumKeyOf r
            = some (s.project_name, s.plaza_id, s.plaza_name, s.report_date))
      ∧ s.nap = rows.countP (fun r =>
          r.is_qualified_nap && decide (sumKeyOf r
            = some (s.project_name, s.plaza_id, s.plaza_name, s.report_date)))
      ∧ (∀ r ∈ rows, r.project_name = none ∨ r.report_date = none →
          sumKeyOf r
            ≠ some (s.project_name, s.plaza_id, s.plaza_name, s.report_date)) := by
  intro s hs
  rw [generate_daily_summary, mem_sortBy] at hs
  rw [List.mem_map] at hs
  obtain ⟨k, _, rfl⟩ := hs
  have hkey : ((aggFor rows k).project_name, (aggFor rows k).plaza_id,
      (aggFor rows k).plaza_name, (aggFor rows k).report_date) = k := rfl
  have hts : ∀ r ∈ rows.filter (fun r => sumKeyOf r = some k),
      r.reader_read_time.isSome = true := by
    intro r hr
    rw [List.mem_filter] at hr
    have hk := sumKeyOf_some_inv (of_decide_eq_true hr.2)
    have hrd := rd_from_ts r (hrows ▸ hr.1)
    rw [hk.2.2.2] at hrd
    cases hv : r.reader_read_time with
    | some t => rfl
    | none => rw [hv] at hrd; exact absurd hrd.symm (by simp [report_date])
  have hatp : (aggFor rows k).atp
      = (rows.filter (fun r => sumKeyOf r = some k)).length := by
    simp only [aggFor]
    exact List.countP_eq_length.mpr hts
  refine ⟨?_, ?_, ?_, ?_⟩
  · rw [hatp]
    exact List.countP_le_length _
  · rw [hatp, hkey, List.countP_eq_length_filter]
  · show (aggFor rows k).nap = _
    rw [hkey]
    simp only [aggFor]
    rw [List.countP_filter]
  · intro r _ hnull
    rw [hkey, sumKeyOf_none_of_null hnull]
    simp

/-- A concrete reconciled input for the summary witness: three reads of one
vehicle on one report day plus one null-timestamp row. -/
def trEx : List TRow :=
  [{ plaza_id := some "123", vehicle_reg_no := some "V1",
     reader_read_time := some 36000, project_name := some "P1",
     plaza_name := some "Plaza1", trip_count := 1 },
   { plaza_id := some "123", vehicle_reg_no := some "V1",
     reader_read_time := some 50400, project_name := some "P1",
     plaza_name := some "Plaza1", trip_count := 2 },
   { plaza_id := some "123", vehicle_reg_no := some "V1",
     reader_read_time := some 64800, project_name := some "P1",
     plaza_name := some "Plaza1", trip_count := 3 },
   { plaza_id := some "123", vehicle_reg_no := some "V1",
     reader_read_time := none, project_name := some "P1",
     plaza_name := some "Plaza1", trip_count := 4 }]

/-- Witness for C5 at `trEx`: the single summary row has nap 2 ≤ atp 3, its
atp equals the count of reconciled rows with its key (the null-timestamp
row, whose report_date is null, is not counted), and its nap equals the
count of those key-sharing rows with is_qualified_nap true (the trip_count-3
row shares the key but does not qualify). -/
theorem daily_summary_invariant_witness :
    ({ project_name := "P1", plaza_id := "123", plaza_name := "Plaza1",
       report_date := 0, atp := 3, nap := 2 } : SumRow).nap
        ≤ ({ project_name := "P1", plaza_id := "123", plaza_name := "Plaza1",
             report_date := 0, atp := 3, nap := 2 } : SumRow).atp
      ∧ ({ project_name := "P1", plaza_id := "123", plaza_name := "Plaza1",
           report_date := 0, atp := 3, nap := 2 } : SumRow).atp
        = (determine_nap_qualification (calculate_report_date trEx)).countP
            (fun r => sumKeyOf r = some ("P1", "123", "Plaza1", 0))
      ∧ ({ project_name := "P1", plaza_id := "123", plaza_name := "Plaza1",
           report_date := 0, atp := 3, nap := 2 } : SumRow).nap
        = (determine_nap_qualification (calculate_report_date trEx)).countP
            (fun r => r.is_qualified_nap
              && decide (sumKeyOf r = some ("P1", "123", "Plaza1", 0))) := by
  have h := daily_summary_invariant trEx
    (determine_nap_qualification (calculate_report_date trEx)) rfl
    { project_name := "P1", plaza_id := "123", plaza_name := "Plaza1",
      report_date := 0, atp := 3, nap := 2 } (by decide)
  exact ⟨h.1, h.2.1, h.2.2.1⟩

/-! ### Lemmas for dropped null-key rows -/

theorem keyOf_some_inv {r : DRow} {k : String × String}
    (h : keyOf r = some k) :
    r.plaza_id = some k.1 ∧ r.vehicle_reg_no = some k.2 := by
  cases hp : r.plaza_id <;> cases hq : r.vehicle_reg_no <;>
    simp [keyOf, hp, hq] at h
  subst h
  simp

theorem calc_trip_mem_key {rows : List DRow} :
    ∀ r ∈ calculate_trip_count rows,
      r.plaza_id.isSome = true ∧ r.vehicle_reg_no.isSome = true := by
  intro r hr
  simp only [calculate_trip_count, List.mem_flatMap] at hr
  obtain ⟨k, _, hrk⟩ := hr
  simp only [calc_tripcount] at hrk
  obtain ⟨a, c, ha, _, rfl⟩ := mem_zipWith hrk
  rw [mem_sortBy] at ha
  rw [groupRows, List.mem_filter] at ha
  have hk := keyOf_some_inv (of_decide_eq_true ha.2)
  constructor
  · show a.plaza_id.isSome = true
    rw [hk.1]
    rfl
  · show a.vehicle_reg_no.isSome = true
    rw [hk.2]
    rfl

theorem firstKeys_filter_aux :
    ∀ (rows : List DRow) (acc : List (String × String)),
      (rows.filter (fun r => (keyOf r).isSome)).foldl fkStep acc
        = rows.foldl fkStep acc
  | [], _ => rfl
  | r :: rest, acc => by
    cases hk : keyOf r with
    | none =>
      have h0 : (keyOf r).isSome = false := by rw [hk]; rfl
      have h1 : fkStep acc r = acc := by rw [fkStep, hk]
      simp only [List.filter_cons, h0, Bool.false_eq_true, if_false,
        List.foldl_cons, h1]
      exact firstKeys_filter_aux rest acc
    | some k =>
      have h0 : (keyOf r).isSome = true := by rw [hk]; rfl
      simp only [List.filter_cons, h0, if_true, List.foldl_cons]
      exact firstKeys_filter_aux rest _

theorem firstKeys_filter (rows : List DRow) :
    firstKeys (rows.filter (fun r => (keyOf r).isSome)) = firstKeys rows :=
  firstKeys_filter_aux rows []

theorem groupRows_filter (rows : List DRow) (k : String × String) :
    groupRows (rows.filter (fun r => (keyOf r).isSome)) k = groupRows rows k := by
  show (rows.filter _).filter _ = rows.filter _
  rw [List.filter_filter]
  apply List.filter_congr
  intro r _
  by_cases hk : keyOf r = some k
  · have h0 : (keyOf r).isSome = true := by rw [hk]; rfl
    simp [hk, h0]
  · simp [hk]

/-- C10.  Rows whose PlazaID or Vehicle Reg. No. is null are silently dropped
by `calculate_trip_count`'s `groupby(dropna=True)`: every output row has
non-null keys; pre-filtering the null-key rows away changes nothing (they
were contributing nothing — dropped with no error or warning); and every row
of `reconcile`'s reconciled output table likewise has non-null keys, so a
null-key input row appears in neither output table. -/
theorem null_key_rows_dropped (rows : List DRow) :
    (∀ r ∈ calculate_trip_count rows,
        r.plaza_id.isSome = true ∧ r.vehicle_reg_no.isSome = true)
    ∧ calculate_trip_count rows
        = calculate_trip_count (rows.filter (fun r => (keyOf r).isSome))
    ∧ (∀ (tbl : Table) (out : Table × List QRow × List SumRow),
        reconcile tbl = .ok out →
        ∀ r ∈ out.2.1,
          r.plaza_id.isSome = true ∧ r.vehicle_reg_no.isSome = true) := by
  refine ⟨calc_trip_mem_key, ?_, ?_⟩
  · simp only [calculate_trip_count, firstKeys_filter]
    congr 1
    funext k
    rw [groupRows_filter]
  · intro tbl out hok r hr
    obtain ⟨ds, _, hout⟩ := reconcile_ok_inv tbl out hok
    rw [hout] at hr
    simp only [pipelineOf, determine_nap_qualification, List.mem_map] at hr
    obtain ⟨x, hx, rfl⟩ := hr
    simp only [calculate_report_date, List.mem_map] at hx
    obtain ⟨y, hy, rfl⟩ := hx
    exact calc_trip_mem_key y hy

/-- A mixed input for the C10 witness: one row with a null PlazaID and one
fully keyed row. -/
def dMixed : List DRow :=
  [{ plaza_id := none, vehicle_reg_no := some "V0",
     reader_read_time := some 100, project_name := some "P1",
     plaza_name := some "Plaza1" },
   { plaza_id := some "123", vehicle_reg_no := some "V1",
     reader_read_time := some 200, project_name := some "P1",
     plaza_name := some "Plaza1" }]

/-- Witness for C10 at `dMixed`: dropping the null-key row first changes
nothing, and the single surviving output row has non-null keys. -/
theorem null_key_rows_dropped_witness :
    calculate_trip_count dMixed
        = calculate_trip_count (dMixed.filter (fun r => (keyOf r).isSome))
      ∧ (∀ r ∈ calculate_trip_count dMixed,
          r.plaza_id.isSome = true ∧ r.vehicle_reg_no.isSome = true) :=
  ⟨(null_key_rows_dropped dMixed).2.1, (null_key_rows_dropped dMixed).1⟩

end TasReconcile
